import Mathlib

/-!
Shallow embedding of the am2320 driver (src/src/lib.rs).

Machine integers are modelled as `Nat` (all byte values are `u8`, i.e. below
256; the well-formedness predicate `Frame.wf` records this where a theorem
quantifies over frames).  The two `f32` fields of `Measurement` are modelled
as rationals: every value produced by the driver is a 16-bit integer divided
by 10, which is exact in `ℚ`.  The generic I2C bus and delay collaborators
are modelled by an oracle `Bus` fixing the outcome of each transaction, and
`read` additionally returns the list of external operations it performed, in
order, so that sequencing claims can be stated.
-/

namespace Am2320

/-- Mirrors `enum Error` of the source: `WriteError` (spec name
`WriteFailed`), `ReadError` (`ReadFailed`), `SensorError`
(`ProtocolViolation`). -/
inductive Error where
  | WriteError : Error
  | ReadError : Error
  | SensorError : Error
deriving DecidableEq, Repr

/-- Mirrors `struct Measurement`; `f32` fields modelled as `ℚ`. -/
structure Measurement where
  temperature : ℚ
  humidity : ℚ
deriving DecidableEq, Repr

def DEVICE_I2C_ADDR : Nat := 0x5C

/-- One inner round of the CRC loop: `crc >>= 1` and, when the low bit was
set, `crc ^= 0xA001` (mirrors the body of `for _ in 0..8`). -/
def crc16Round (crc : Nat) : Nat :=
  if crc &&& 0x0001 = 0x0001 then (crc >>> 1) ^^^ 0xA001 else crc >>> 1

/-- Processing of one input byte: `crc ^= u16::from(*e)` followed by eight
rounds. -/
def crc16Byte (crc b : Nat) : Nat :=
  (List.range 8).foldl (fun c _ => crc16Round c) (crc ^^^ b)

/-- Mirrors `fn crc16(data: &[u8]) -> u16`: accumulator starts at `0xFFFF`,
each byte is folded in order. -/
def crc16 (data : List Nat) : Nat :=
  data.foldl crc16Byte 0xFFFF

/-- The fixed 8-byte response frame (`let mut data = [0; 8]` filled by the
bus read). -/
structure Frame where
  b0 : Nat
  b1 : Nat
  b2 : Nat
  b3 : Nat
  b4 : Nat
  b5 : Nat
  b6 : Nat
  b7 : Nat
deriving DecidableEq, Repr

/-- Every byte of the frame is a `u8` value, as the Rust types guarantee. -/
def Frame.wf (f : Frame) : Prop :=
  f.b0 < 256 ∧ f.b1 < 256 ∧ f.b2 < 256 ∧ f.b3 < 256 ∧
  f.b4 < 256 ∧ f.b5 < 256 ∧ f.b6 < 256 ∧ f.b7 < 256

instance (f : Frame) : Decidable f.wf := by
  unfold Frame.wf; infer_instance

/-- `&data[0..6]`, the slice the driver feeds to `crc16`. -/
def Frame.payload (f : Frame) : List Nat :=
  [f.b0, f.b1, f.b2, f.b3, f.b4, f.b5]

/-- Mirrors the temperature decoding of `read`:
`i16::from_be_bytes([data[4] & 0b0111_1111, data[5]])`, negated when
`data[4] & 0b1000_0000 != 0`.  The masked high byte is at most `0x7F`, so
the `i16` reinterpretation is the plain big-endian value. -/
def decodeTemperature (b4 b5 : Nat) : Int :=
  let magnitude : Int := ((b4 &&& 0x7F) * 256 + b5 : Nat)
  if b4 &&& 0x80 ≠ 0 then -magnitude else magnitude

/-- Mirrors the construction of the returned `Measurement`:
`u16::from_be_bytes([data[2], data[3]])` for humidity, both fields divided
by `10.0`. -/
def decodeMeasurement (f : Frame) : Measurement :=
  { temperature := (decodeTemperature f.b4 f.b5 : ℚ) / 10
    humidity := ((f.b2 * 256 + f.b3 : Nat) : ℚ) / 10 }

/-- Mirrors the validation section of `read`: header bytes must echo
`0x03` / `0x04`, then the CRC over bytes 0–5 must equal
`u16::from_le_bytes([data[6], data[7]])` (= `b6 + 256 * b7`); both failures
return `SensorError`, success returns the decoded measurement. -/
def validate (f : Frame) : Except Error Measurement :=
  if f.b0 ≠ 0x03 ∨ f.b1 ≠ 0x04 then
    Except.error Error.SensorError
  else if crc16 f.payload ≠ f.b6 + 256 * f.b7 then
    Except.error Error.SensorError
  else
    Except.ok (decodeMeasurement f)

/-- One external operation performed by `read`, in the order issued. -/
inductive Op where
  | writeOp (addr : Nat) (bytes : List Nat) : Op
  | delayUsOp (us : Nat) : Op
  | readOp (addr : Nat) (len : Nat) : Op
deriving DecidableEq, Repr

/-- Oracle fixing the outcome of each bus transaction of one `read` call:
whether the wake write is acknowledged (its result is discarded by the
driver: `let _ = self.device.write(DEVICE_I2C_ADDR, &[0x00])`), whether the
command write succeeds, and the 8 bytes delivered by the read (`none` when
the read transaction fails). -/
structure Bus where
  wakeAck : Bool
  commandAck : Bool
  response : Option Frame
deriving DecidableEq, Repr

/-- The operations issued up to and including the command write. -/
def opsThroughCommand : List Op :=
  [Op.writeOp DEVICE_I2C_ADDR [0x00], Op.delayUsOp 900,
   Op.writeOp DEVICE_I2C_ADDR [0x03, 0x00, 0x04]]

/-- The operations issued when the command write succeeds: the second delay
and the 8-byte read follow. -/
def opsThroughRead : List Op :=
  opsThroughCommand ++ [Op.delayUsOp 1600, Op.readOp DEVICE_I2C_ADDR 8]

/-- Mirrors `Am2320::read`: wake write (result discarded), 900 µs delay,
command write `[0x03, 0x00, 0x04]` (failure returns `WriteError` before the
second delay), 1600 µs delay, 8-byte read (failure returns `ReadError`),
then validation and decoding.  Returns the driver's result together with
the ordered list of external operations performed. -/
def read (bus : Bus) : Except Error Measurement × List Op :=
  if bus.commandAck then
    match bus.response with
    | none => (Except.error Error.ReadError, opsThroughRead)
    | some data => (validate data, opsThroughRead)
  else
    (Except.error Error.WriteError, opsThroughCommand)

/-- The canonical fixture frame from the device spec: header `0x03 0x04`,
humidity `0x0236` (56.6 %), temperature `0x00DB` (21.9 °C), checksum
`0x0550` little-endian. -/
def frameFix : Frame := ⟨0x03, 0x04, 0x02, 0x36, 0x00, 0xDB, 0x50, 0x05⟩

/-- A checksum-valid frame whose temperature sign bit is set:
magnitude `0x0001`, so the decoded temperature is −0.1 °C. -/
def frameNeg : Frame := ⟨0x03, 0x04, 0x00, 0x00, 0x80, 0x01, 0x51, 0xE8⟩

/-- A checksum-valid frame whose humidity field is `0xFFFF`,
decoding to 6553.5 %. -/
def frameBig : Frame := ⟨0x03, 0x04, 0xFF, 0xFF, 0x00, 0x00, 0xF1, 0xCC⟩

/-- C1: a call to read() that returns a Measurement performs exactly the
wake write of `[0x00]` to 0x5C, a 900 µs delay (within the mandated
800 µs – 3 ms window), the command write `[0x03, 0x00, 0x04]` to 0x5C, a
1600 µs delay (at least 1500 µs), and an 8-byte read from 0x5C, in this
order and no others. -/
theorem read_ok_performs_exact_sequence (bus : Bus) (m : Measurement)
    (h : (read bus).fst = Except.ok m) :
    (read bus).snd =
      [Op.writeOp 0x5C [0x00], Op.delayUsOp 900,
       Op.writeOp 0x5C [0x03, 0x00, 0x04], Op.delayUsOp 1600,
       Op.readOp 0x5C 8] ∧
    (800 : Nat) ≤ 900 ∧ (900 : Nat) ≤ 3000 ∧ (1500 : Nat) ≤ 1600 := by
  obtain ⟨w, c, r⟩ := bus
  cases c with
  | false => simp [read] at h
  | true =>
    cases r with
    | none => simp [read] at h
    | some f => exact ⟨rfl, by norm_num, by norm_num, by norm_num⟩

set_option maxRecDepth 8000 in
/-- Witness for C1 at the canonical fixture bus. -/
theorem read_ok_performs_exact_sequence_witness :
    (read ⟨true, true, some frameFix⟩).fst =
      Except.ok (decodeMeasurement frameFix) ∧
    (read ⟨true, true, some frameFix⟩).snd =
      [Op.writeOp 0x5C [0x00], Op.delayUsOp 900,
       Op.writeOp 0x5C [0x03, 0x00, 0x04], Op.delayUsOp 1600,
       Op.readOp 0x5C 8] :=
  have h : (read ⟨true, true, some frameFix⟩).fst =
      Except.ok (decodeMeasurement frameFix) := rfl
  ⟨h, (read_ok_performs_exact_sequence _ _ h).1⟩

/-- C2: the wake write's outcome is discarded entirely; read() behaves
identically (same result and same operation sequence) whether the wake
write succeeds or fails, so its failure is never the cause of an error. -/
theorem read_independent_of_wake (w1 w2 c : Bool) (r : Option Frame) :
    read ⟨w1, c, r⟩ = read ⟨w2, c, r⟩ := rfl

/-- C3: if the command write fails, read() returns the write-failure error
and no bus read transaction appears in the operation sequence. -/
theorem read_write_failed_no_read (bus : Bus) (h : bus.commandAck = false) :
    (read bus).fst = Except.error Error.WriteError ∧
    ∀ a n, Op.readOp a n ∉ (read bus).snd := by
  obtain ⟨w, c, r⟩ := bus
  subst h
  exact ⟨rfl, by intro a n; simp [read, opsThroughCommand]⟩

/-- Witness for C3 at a bus whose command write fails. -/
theorem read_write_failed_no_read_witness :
    (read ⟨true, false, some frameFix⟩).fst = Except.error Error.WriteError ∧
    Op.readOp 0x5C 8 ∉ (read ⟨true, false, some frameFix⟩).snd :=
  have h := read_write_failed_no_read ⟨true, false, some frameFix⟩ rfl
  ⟨h.1, h.2 0x5C 8⟩

/-- C4: if the command write succeeds but the 8-byte read fails, read()
returns the read-failure error (so no frame is validated or decoded). -/
theorem read_read_failed_error (bus : Bus) (h1 : bus.commandAck = true)
    (h2 : bus.response = none) :
    (read bus).fst = Except.error Error.ReadError := by
  obtain ⟨w, c, r⟩ := bus
  subst h1; subst h2; rfl

/-- Witness for C4 at a bus whose read transaction fails. -/
theorem read_read_failed_error_witness :
    (read ⟨true, true, none⟩).fst = Except.error Error.ReadError :=
  read_read_failed_error ⟨true, true, none⟩ rfl rfl

/-- C5: a frame whose byte 0 is not 0x03 or whose byte 1 is not 0x04 makes
read() return the protocol-violation error, regardless of its checksum. -/
theorem read_bad_header (w : Bool) (f : Frame)
    (h : f.b0 ≠ 0x03 ∨ f.b1 ≠ 0x04) :
    (read ⟨w, true, some f⟩).fst = Except.error Error.SensorError := by
  show validate f = _
  unfold validate
  rw [if_pos h]

/-- Witness for C5 at a frame with a wrong function-code byte. -/
theorem read_bad_header_witness :
    ((0x02 : Nat) ≠ 0x03 ∨ (0x04 : Nat) ≠ 0x04) ∧
    (read ⟨true, true, some ⟨0x02, 0x04, 0x02, 0x36, 0x00, 0xDB, 0x50, 0x05⟩⟩).fst
      = Except.error Error.SensorError :=
  ⟨by decide,
   read_bad_header true ⟨0x02, 0x04, 0x02, 0x36, 0x00, 0xDB, 0x50, 0x05⟩
     (by decide)⟩

/-- C6: with valid header bytes, read() returns the protocol-violation
error exactly when the CRC over bytes 0–5 differs from the little-endian
16-bit value in bytes 6–7; when they agree it returns the decoded
measurement. -/
theorem read_checksum_decides (w : Bool) (f : Frame) (hwf : f.wf)
    (h0 : f.b0 = 0x03) (h1 : f.b1 = 0x04) :
    ((read ⟨w, true, some f⟩).fst = Except.error Error.SensorError ↔
      crc16 f.payload ≠ f.b6 + 256 * f.b7) ∧
    (crc16 f.payload = f.b6 + 256 * f.b7 →
      (read ⟨w, true, some f⟩).fst = Except.ok (decodeMeasurement f)) := by
  show (validate f = _ ↔ _) ∧ (_ → validate f = _)
  unfold validate
  rw [if_neg (by simp [h0, h1])]
  split_ifs with hc
  · exact ⟨iff_of_true rfl hc, fun heq => absurd heq hc⟩
  · exact ⟨iff_of_false (by simp) hc, fun _ => rfl⟩

/-- Witness for C6 at the canonical fixture frame. -/
theorem read_checksum_decides_witness :
    frameFix.wf ∧ frameFix.b0 = 0x03 ∧ frameFix.b1 = 0x04 ∧
    ((read ⟨true, true, some frameFix⟩).fst = Except.error Error.SensorError ↔
      crc16 frameFix.payload ≠ frameFix.b6 + 256 * frameFix.b7) :=
  ⟨by decide, rfl, rfl,
   (read_checksum_decides true frameFix (by decide) rfl rfl).1⟩

/-- C7: the checksum of the empty byte sequence is 0xFFFF. -/
theorem crc16_empty : crc16 [] = 0xFFFF := rfl

set_option maxRecDepth 4000 in
/-- C8: the checksum of the canonical device-spec fixture
`[0x03, 0x04, 0x02, 0x36, 0x00, 0xDB]` is 0x0550. -/
theorem crc16_device_fixture :
    crc16 [0x03, 0x04, 0x02, 0x36, 0x00, 0xDB] = 0x0550 := by decide

/-- C9: for every accepted frame, the returned temperature is the 15-bit
big-endian magnitude from byte 4's low 7 bits and byte 5, divided by 10,
negated exactly when byte 4's high bit is set; with the high bit set and a
nonzero magnitude the temperature is negative with that magnitude. -/
theorem read_temperature_sign_magnitude (w : Bool) (f : Frame)
    (m : Measurement) (hwf : f.wf)
    (h : (read ⟨w, true, some f⟩).fst = Except.ok m) :
    (m.temperature =
      (if f.b4 &&& 0x80 ≠ 0 then
        -(((f.b4 &&& 0x7F) * 256 + f.b5 : Nat) : ℚ)
       else (((f.b4 &&& 0x7F) * 256 + f.b5 : Nat) : ℚ)) / 10) ∧
    (f.b4 &&& 0x80 ≠ 0 → (f.b4 &&& 0x7F) * 256 + f.b5 ≠ 0 →
      m.temperature < 0 ∧
      -m.temperature = (((f.b4 &&& 0x7F) * 256 + f.b5 : Nat) : ℚ) / 10) := by
  have hv : validate f = Except.ok m := h
  unfold validate at hv
  split_ifs at hv
  have hm : m = decodeMeasurement f := (Except.ok.injEq _ _).mp hv |>.symm
  subst hm
  have htemp : (decodeMeasurement f).temperature =
      (if f.b4 &&& 0x80 ≠ 0 then
        -(((f.b4 &&& 0x7F) * 256 + f.b5 : Nat) : ℚ)
       else (((f.b4 &&& 0x7F) * 256 + f.b5 : Nat) : ℚ)) / 10 := by
    show (decodeTemperature f.b4 f.b5 : ℚ) / 10 = _
    unfold decodeTemperature
    split_ifs <;> push_cast <;> ring
  refine ⟨htemp, fun hbit hmag => ?_⟩
  rw [htemp, if_pos hbit]
  have hpos : (0 : ℚ) < (((f.b4 &&& 0x7F) * 256 + f.b5 : Nat) : ℚ) := by
    exact_mod_cast Nat.pos_of_ne_zero hmag
  constructor
  · linarith
  · ring

set_option maxRecDepth 8000 in
/-- Witness for C9 at a checksum-valid frame with the sign bit set. -/
theorem read_temperature_sign_magnitude_witness :
    frameNeg.wf ∧
    (read ⟨true, true, some frameNeg⟩).fst =
      Except.ok (decodeMeasurement frameNeg) ∧
    (decodeMeasurement frameNeg).temperature < 0 :=
  have hwf : frameNeg.wf := by decide
  have h : (read ⟨true, true, some frameNeg⟩).fst =
      Except.ok (decodeMeasurement frameNeg) := rfl
  ⟨hwf, h,
   ((read_temperature_sign_magnitude true frameNeg _ hwf h).2
     (by decide) (by decide)).1⟩

set_option maxRecDepth 8000 in
/-- C10 counterexample: a checksum-valid frame with humidity field 0xFFFF
is accepted by read() and decodes to humidity 6553.5 %, which exceeds
100 %, refuting the claimed 0–100 range invariant. -/
theorem read_humidity_can_exceed_100 :
    (read ⟨true, true, some frameBig⟩).fst =
      Except.ok (decodeMeasurement frameBig) ∧
    ¬((decodeMeasurement frameBig).humidity ≤ 100) := by
  refine ⟨rfl, ?_⟩
  unfold decodeMeasurement frameBig
  norm_num

/-- C10 amended: every Measurement returned by a successful read() has
humidity equal to the big-endian u16 from bytes 2–3 divided by 10, hence
within 0 to 6553.5; the code enforces no 100 % upper bound. -/
theorem read_humidity_decode_and_bound (w : Bool) (f : Frame)
    (m : Measurement) (hwf : f.wf)
    (h : (read ⟨w, true, some f⟩).fst = Except.ok m) :
    m.humidity = ((f.b2 * 256 + f.b3 : Nat) : ℚ) / 10 ∧
    0 ≤ m.humidity ∧ m.humidity ≤ (13107 : ℚ) / 2 := by
  have hv : validate f = Except.ok m := h
  unfold validate at hv
  split_ifs at hv
  have hm : m = decodeMeasurement f := (Except.ok.injEq _ _).mp hv |>.symm
  subst hm
  refine ⟨rfl, ?_, ?_⟩
  · show (0 : ℚ) ≤ ((f.b2 * 256 + f.b3 : Nat) : ℚ) / 10
    positivity
  · show ((f.b2 * 256 + f.b3 : Nat) : ℚ) / 10 ≤ (13107 : ℚ) / 2
    have hb : (f.b2 * 256 + f.b3 : Nat) ≤ 65535 := by
      have h2 : f.b2 ≤ 255 := Nat.lt_succ_iff.mp hwf.2.2.1
      have h3 : f.b3 ≤ 255 := Nat.lt_succ_iff.mp hwf.2.2.2.1
      nlinarith
    have hb' : ((f.b2 * 256 + f.b3 : Nat) : ℚ) ≤ 65535 := by exact_mod_cast hb
    linarith

set_option maxRecDepth 8000 in
/-- Witness for C10's amended theorem at the canonical fixture frame. -/
theorem read_humidity_decode_and_bound_witness :
    frameFix.wf ∧
    (read ⟨true, true, some frameFix⟩).fst =
      Except.ok (decodeMeasurement frameFix) ∧
    (decodeMeasurement frameFix).humidity ≤ (13107 : ℚ) / 2 :=
  have hwf : frameFix.wf := by decide
  have h : (read ⟨true, true, some frameFix⟩).fst =
      Except.ok (decodeMeasurement frameFix) := rfl
  ⟨hwf, h, (read_humidity_decode_and_bound true frameFix _ hwf h).2.2⟩

end Am2320
